import Mathlib

/-!
Shallow embedding of `src/code/main.py` (the books.toscrape ETL pipeline).

Strings are modelled as `List Char`; Python's `str.split(sep)` for a
one-character separator is `splitChar`; the two regular-expression
extractions `re.findall(r"\d+\.\d+", s)` and `re.findall(r"\d+", s)` are
modelled by `findDecNum` / `findIntNum` (first match only, which is all the
code uses via `[0]`).  The HTTP environment of `get_response` is an
assignment of one outcome (a response, or a `requests.ConnectTimeout`) to
each attempt number.  `float64`/`int64` casts are modelled exactly over ℚ/ℤ
on the nonnegative decimal texts this pipeline feeds them.
-/

namespace BooksToScrape

abbrev Str := List Char

/-- Python `s.split(sep)` for a single-character separator `sep`:
`"".split -> [""]`, `"/a/".split("/") -> ["", "a", ""]`. Never empty. -/
def splitChar (sep : Char) : Str → List Str
  | [] => [[]]
  | c :: rest =>
    if c = sep then [] :: splitChar sep rest
    else
      match splitChar sep rest with
      | [] => [[c]]
      | g :: gs => (c :: g) :: gs

/-- First match of the pattern `\d+` in `s` (Python
`re.findall(r"\d+", s)[0]` when a match exists): the maximal digit run at
the leftmost digit. -/
def findIntNum : Str → Option Str
  | [] => none
  | c :: rest =>
    if c.isDigit then some ((c :: rest).takeWhile Char.isDigit)
    else findIntNum rest

/-- First match of the pattern `\d+\.\d+` in `s` (Python
`re.findall(r"\d+\.\d+", s)[0]` when a match exists).  The scan advances one
character at a time; at a digit, greedy matching takes the maximal digit
run, requires a dot, then a nonempty digit run.  (Backtracking inside the
first `\d+` can never help: any shorter run is followed by a digit, not a
dot, so this scan agrees with the regex engine.) -/
def findDecNum : Str → Option Str
  | [] => none
  | c :: rest =>
    if c.isDigit then
      let run := (c :: rest).takeWhile Char.isDigit
      match (c :: rest).dropWhile Char.isDigit with
      | '.' :: rest2 =>
        match rest2.takeWhile Char.isDigit with
        | [] => findDecNum rest
        | d :: ds => some (run ++ '.' :: d :: ds)
      | _ => findDecNum rest
    else findDecNum rest

/-- Numeric value of a digit string (most significant digit first). -/
def natOfDigits (s : Str) : ℕ :=
  s.foldl (fun n c => 10 * n + (c.toNat - '0'.toNat)) 0

/-- Python `float(s)` / pandas `astype("float64")` on the nonnegative
decimal texts this pipeline produces: `digits`, `digits.digits`,
`digits.`, or `.digits`; anything else fails.  The value is kept exact as a
rational. -/
def pyFloatOfStr (s : Str) : Option ℚ :=
  let ip := s.takeWhile Char.isDigit
  match s.dropWhile Char.isDigit with
  | [] => if ip = [] then none else some (natOfDigits ip)
  | '.' :: rest =>
    if rest.all Char.isDigit ∧ (ip ≠ [] ∨ rest ≠ []) then
      some ((natOfDigits ip : ℚ) + (natOfDigits rest : ℚ) / 10 ^ rest.length)
    else none
  | _ => none

/-- Python `int(s)` / pandas `astype("int64")` on the nonnegative integer
texts this pipeline produces: a nonempty digit string; anything else
fails. -/
def pyIntOfStr (s : Str) : Option ℤ :=
  if s ≠ [] ∧ s.all Char.isDigit then some (natOfDigits s) else none

/-! ## Fetcher: `get_response` (main.py lines 11–54)

`main.py` imports `os, re, sys, requests, numpy, pandas, bs4, sqlalchemy`
but never `time`, so the statement `time.sleep(60)` in the 429 branch
raises `NameError`, which the `except requests.ConnectTimeout` handler
does not catch. -/

/-- One HTTP response, as much of `requests.Response` as the code reads. -/
structure Response where
  status : ℕ
  text : Str
deriving DecidableEq

/-- The outcome of one `requests.get(url)` call. -/
inductive Outcome where
  | response (r : Response)
  | connectTimeout
deriving DecidableEq

/-- What `get_response` does overall. -/
inductive FetchResult where
  /-- `return [response, response.status_code]` -/
  | ok (r : Response) (code : ℕ)
  /-- `return [None, None]` after the loop -/
  | exhausted
  /-- unhandled `NameError: name 'time' is not defined` from the 429 branch -/
  | nameError
deriving DecidableEq

/-- Result of `get_response` together with the observable effects the
claims mention: how many GET requests were issued and which sleeps
completed (in seconds). -/
structure FetchTrace where
  result : FetchResult
  requests : ℕ
  sleeps : List ℕ
deriving DecidableEq

def n_attempts : ℕ := 5

/-- The loop body of `get_response`, from the given attempt number with the
given remaining fuel (`n_attempts - attempt + 1` at entry) and request
count.  `env i` is the outcome of the `requests.get` on attempt `i`.
The 429 branch prints, then evaluates `time.sleep(60)`, which raises
`NameError` (never caught), so no sleep ever completes. -/
def getResponseGo (env : ℕ → Outcome) : ℕ → ℕ → ℕ → FetchTrace
  | _, 0, reqs => ⟨.exhausted, reqs, []⟩
  | attempt, fuel + 1, reqs =>
    match env attempt with
    | .connectTimeout => getResponseGo env (attempt + 1) fuel (reqs + 1)
    | .response r =>
      if r.status = 200 then ⟨.ok r r.status, reqs + 1, []⟩
      else if r.status = 429 then ⟨.nameError, reqs + 1, []⟩
      else if attempt < n_attempts then getResponseGo env (attempt + 1) fuel (reqs + 1)
      else ⟨.ok r r.status, reqs + 1, []⟩

/-- `get_response(url)` run against the environment `env` describing the
URL's behaviour per attempt. -/
def get_response (env : ℕ → Outcome) : FetchTrace :=
  getResponseGo env 1 n_attempts 0

/-! ## Record extractor: `fetch_title_info` (main.py lines 92–156)

BeautifulSoup itself is not embedded; the parsed artifacts it yields —
the description text and the list of `<td>` texts in document order —
are inputs.  What is embedded is everything the code then does with them:
the positional `dict(zip(fields, product_info))`, the two extra keys, the
Title derivation from the URL, and the assembly of the fixed 9-column
row (a missing column becomes NaN, modelled as `none`). -/

/-- The fixed field-name list (main.py lines 122–130). -/
def FIELDS : List Str :=
  ["UPC".toList, "Product Type".toList, "Price (excl. tax)".toList,
   "Price (incl. tax)".toList, "Tax".toList, "Availability".toList,
   "Number of reviews".toList]

def titleCol : Str := "Title".toList
def descCol : Str := "Product Description".toList

/-- `dict(zip(fields, product_info))`: Python `zip` truncates to the
shorter sequence and the field names are distinct, so the dict is the
positional association list. -/
def buildProductDict (cells : List Str) : List (Str × Str) :=
  FIELDS.zip cells

/-- `url.split("/")[-2].split("_")[0]` (main.py line 135): `none` models
the `IndexError` Python raises when the URL has fewer than two
`/`-separated segments. -/
def titleFromUrl (url : Str) : Option Str :=
  let segs := splitChar '/' url
  if segs.length < 2 then none
  else (segs.get? (segs.length - 2)).map fun seg => (splitChar '_' seg).headD []

/-- The fixed column order of the returned frame (main.py line 137). -/
def COLUMNS : List Str := titleCol :: FIELDS ++ [descCol]

/-- Dictionary lookup; all keys inserted by the code are distinct, so a
left-to-right scan of the insertion list is the dict. -/
def pyLookup (k : Str) : List (Str × Str) → Option Str
  | [] => none
  | (k', v) :: rest => if k' = k then some v else pyLookup k rest

/-- The single DataFrame row `pd.DataFrame(data, index=[0],
columns=columns)` builds: each of the 9 fixed columns paired with its
dict value, `none` (NaN) where the dict lacks the key. -/
def fetchTitleRow (title desc : Str) (cells : List Str) : List (Str × Option Str) :=
  let data := buildProductDict cells ++ [(descCol, desc), (titleCol, title)]
  COLUMNS.map fun col => (col, pyLookup col data)

/-- The 200-branch of `fetch_title_info`, given the page artifacts:
derives Title from the URL (propagating the `IndexError` case as `none`)
and assembles the row. -/
def fetch_title_info (url desc : Str) (cells : List Str) :
    Option (List (Str × Option Str)) :=
  (titleFromUrl url).map fun t => fetchTitleRow t desc cells

/-! ## Cleaner: `clean_data` (main.py lines 159–213) -/

/-- The two exception kinds `clean_data` can raise: `IndexError` from
`list(re.findall(...))[0]` on an empty match list, `ValueError` from
`astype` on non-numeric text. -/
inductive CleanErr where
  | indexError
  | valueError
deriving DecidableEq

/-- The raw frame row `clean_data` receives: the nine text fields of
`fetch_title_info`'s documented output. -/
structure RawRecord where
  title : Str
  upc : Str
  product_type : Str
  price_excl_tax : Str
  price_incl_tax : Str
  tax : Str
  availability : Str
  number_of_reviews : Str
  product_description : Str
deriving DecidableEq

/-- The cleaned row: the nine base fields under the fixed lowercase
schema, prices and tax as exact reals (ℚ), counts as integers.  These are
total (non-optional) fields: the type itself admits no null. -/
structure CleanRecord where
  title : Str
  upc : Str
  product_type : Str
  price_excl_tax : ℚ
  price_incl_tax : ℚ
  tax : ℚ
  availability : ℤ
  number_of_reviews : ℤ
  product_description : Str
deriving DecidableEq

/-- `convert_price` (main.py lines 186–187): first `\d+\.\d+` match, or
`IndexError` when there is none. -/
def convert_price (price : Str) : Except CleanErr Str :=
  match findDecNum price with
  | some m => .ok m
  | none => .error .indexError

/-- `convert_availability` (main.py lines 189–190): first `\d+` match, or
`IndexError` when there is none. -/
def convert_availability (availability : Str) : Except CleanErr Str :=
  match findIntNum availability with
  | some m => .ok m
  | none => .error .indexError

/-- The `astype("float64")` cast on one cell. -/
def castFloat (s : Str) : Except CleanErr ℚ :=
  match pyFloatOfStr s with
  | some q => .ok q
  | none => .error .valueError

/-- The `astype("int64")` cast on one cell. -/
def castInt (s : Str) : Except CleanErr ℤ :=
  match pyIntOfStr s with
  | some n => .ok n
  | none => .error .valueError

/-- `clean_data` (main.py lines 159–213): apply the two converters to the
availability and the three price-like columns (lines 192–195), rename the
columns positionally to the fixed schema (lines 197–210) and cast to the
declared dtypes (line 211).  Any failure propagates as the exception. -/
def clean_data (r : RawRecord) : Except CleanErr CleanRecord :=
  match convert_availability r.availability with
  | .error e => .error e
  | .ok av =>
  match convert_price r.price_excl_tax with
  | .error e => .error e
  | .ok pe =>
  match convert_price r.price_incl_tax with
  | .error e => .error e
  | .ok pin =>
  match convert_price r.tax with
  | .error e => .error e
  | .ok tx =>
  match castFloat pe with
  | .error e => .error e
  | .ok peQ =>
  match castFloat pin with
  | .error e => .error e
  | .ok pinQ =>
  match castFloat tx with
  | .error e => .error e
  | .ok txQ =>
  match castInt av with
  | .error e => .error e
  | .ok avZ =>
  match castInt r.number_of_reviews with
  | .error e => .error e
  | .ok nrZ =>
    .ok ⟨r.title, r.upc, r.product_type, peQ, pinQ, txQ, avZ, nrZ,
      r.product_description⟩

/-- A cleaned row with the category label the driver stamps on
(`clean_science_df["category"] = "Science"`, main.py lines 282–283). -/
structure StampedRecord where
  title : Str
  upc : Str
  product_type : Str
  price_excl_tax : ℚ
  price_incl_tax : ℚ
  tax : ℚ
  availability : ℤ
  number_of_reviews : ℤ
  product_description : Str
  category : Str
deriving DecidableEq

/-- The driver's category stamp: adds the `category` column, keeping the
nine base fields. -/
def stampCategory (c : CleanRecord) (cat : Str) : StampedRecord :=
  ⟨c.title, c.upc, c.product_type, c.price_excl_tax, c.price_incl_tax,
   c.tax, c.availability, c.number_of_reviews, c.product_description, cat⟩

/-! ## Loader: `load_data` (main.py lines 216–255) -/

/-- One line of `data.csv`: the header line or one record row. -/
inductive CsvLine where
  | header
  | data (row : StampedRecord)
deriving DecidableEq

/-- The observable effect of one `load_data` call: the new contents of
`data.csv`, or the database insert with its connection string. -/
inductive LoadResult where
  | file (content : List CsvLine)
  | db (connString : Str) (table : Str) (rows : List StampedRecord)
deriving DecidableEq

/-- `load_data` (main.py lines 216–255).  `args` is `sys.argv`; `fs` is
the current contents of `data.csv` (`none` when the file does not exist).
File mode (`"--no_db" in sys.argv`): on a missing file, `to_csv(mode="w",
header=True)` writes the header then the rows; otherwise `to_csv(mode="a",
header=False)` appends the rows.  Database mode builds
`mysql+pymysql://{user}:{password}@{host}/{database}` and appends the rows
to the table. -/
def load_data (args : List Str) (df : List StampedRecord)
    (user password host database table : Str)
    (fs : Option (List CsvLine)) : LoadResult :=
  if "--no_db".toList ∈ args then
    match fs with
    | none => .file (CsvLine.header :: df.map CsvLine.data)
    | some content => .file (content ++ df.map CsvLine.data)
  else
    .db ("mysql+pymysql://".toList ++ user ++ ":".toList ++ password ++
      "@".toList ++ host ++ "/".toList ++ database) table df

/-- Number of header lines in a csv content. -/
def headerCount (content : List CsvLine) : ℕ :=
  content.countP fun l => decide (l = CsvLine.header)

/-- The data rows of a csv content, in order. -/
def dataRows (content : List CsvLine) : List StampedRecord :=
  content.filterMap fun l =>
    match l with
    | .header => none
    | .data r => some r

/-! ## Basic lemmas and sanity checks -/

theorem splitChar_ne_nil (sep : Char) (s : Str) : splitChar sep s ≠ [] := by
  cases s with
  | nil => simp [splitChar]
  | cons c rest =>
    simp only [splitChar]
    split
    · simp
    · split <;> simp

/-- When the separator does not occur in `t`, the split of `t ++ sep :: u`
starts with the group `t`. -/
theorem splitChar_append_sep (sep : Char) (t u : Str) (ht : sep ∉ t) :
    splitChar sep (t ++ sep :: u) = t :: splitChar sep u := by
  induction t with
  | nil => simp [splitChar]
  | cons a t ih =>
    have ha : a ≠ sep := fun h => ht (h ▸ List.mem_cons_self a t)
    have ht' : sep ∉ t := fun h => ht (List.mem_cons_of_mem a h)
    simp only [List.cons_append, splitChar, if_neg ha, List.append_eq]
    rw [ih ht']

example : splitChar '/' "a//b".toList = ["a".toList, [], "b".toList] := by decide
example : findDecNum "£51.77".toList = some "51.77".toList := by decide
example : findDecNum "11..5".toList = none := by decide
example : findDecNum "12a3.4".toList = some "3.4".toList := by decide
example : findIntNum "In stock (19 available)".toList = some "19".toList := by decide
example : pyFloatOfStr "51.77".toList = some (5177 / 100 : ℚ) := by
  have h : pyFloatOfStr "51.77".toList = some ((51 : ℚ) + (77 : ℚ) / 10 ^ 2) := rfl
  rw [h]; norm_num
example : pyIntOfStr "19".toList = some 19 := by decide

/-! ## Step lemmas for the fetch loop -/

theorem getResponseGo_timeout (env : ℕ → Outcome) (attempt fuel reqs : ℕ)
    (h : env attempt = .connectTimeout) :
    getResponseGo env attempt (fuel + 1) reqs =
      getResponseGo env (attempt + 1) fuel (reqs + 1) := by
  simp [getResponseGo, h]

theorem getResponseGo_200 (env : ℕ → Outcome) (attempt fuel reqs : ℕ)
    (r : Response) (h : env attempt = .response r) (h200 : r.status = 200) :
    getResponseGo env attempt (fuel + 1) reqs = ⟨.ok r r.status, reqs + 1, []⟩ := by
  simp [getResponseGo, h, h200]

theorem getResponseGo_429 (env : ℕ → Outcome) (attempt fuel reqs : ℕ)
    (r : Response) (h : env attempt = .response r) (h429 : r.status = 429) :
    getResponseGo env attempt (fuel + 1) reqs = ⟨.nameError, reqs + 1, []⟩ := by
  simp [getResponseGo, h, h429]

theorem getResponseGo_other_retry (env : ℕ → Outcome) (attempt fuel reqs : ℕ)
    (r : Response) (h : env attempt = .response r)
    (h200 : r.status ≠ 200) (h429 : r.status ≠ 429) (hlt : attempt < n_attempts) :
    getResponseGo env attempt (fuel + 1) reqs =
      getResponseGo env (attempt + 1) fuel (reqs + 1) := by
  simp [getResponseGo, h, h200, h429, hlt]

theorem getResponseGo_other_last (env : ℕ → Outcome) (attempt fuel reqs : ℕ)
    (r : Response) (h : env attempt = .response r)
    (h200 : r.status ≠ 200) (h429 : r.status ≠ 429) (hge : ¬ attempt < n_attempts) :
    getResponseGo env attempt (fuel + 1) reqs = ⟨.ok r r.status, reqs + 1, []⟩ := by
  simp [getResponseGo, h, h200, h429, hge]

/-! ## Concrete environments used as witnesses -/

/-- A 200 response. -/
def resp200 : Response := ⟨200, "ok".toList⟩

/-- A 404 response. -/
def resp404 : Response := ⟨404, "not found".toList⟩

/-- A 429 response. -/
def resp429 : Response := ⟨429, "too many requests".toList⟩

/-- A URL that answers 200 to every request. -/
def envAll200 : ℕ → Outcome := fun _ => .response resp200

/-- A URL that answers 404 to every request. -/
def envAll404 : ℕ → Outcome := fun _ => .response resp404

/-- A URL that answers 429 to every request. -/
def envAll429 : ℕ → Outcome := fun _ => .response resp429

/-! ## Claims about the fetcher -/

/-- C2: for every URL whose first HTTP GET returns status 200,
`get_response` returns that response object and the status code 200
immediately on the first attempt, issuing no further requests and
performing no sleep. -/
theorem get_response_first_200 (env : ℕ → Outcome) (r : Response)
    (h1 : env 1 = .response r) (h2 : r.status = 200) :
    get_response env = ⟨.ok r 200, 1, []⟩ := by
  show getResponseGo env 1 (4 + 1) 0 = _
  rw [getResponseGo_200 env 1 4 0 r h1 h2, h2]

/-- Witness for C2 at a URL answering 200 on every attempt. -/
theorem get_response_first_200_witness :
    get_response envAll200 = ⟨.ok resp200 200, 1, []⟩ :=
  get_response_first_200 envAll200 resp200 rfl rfl

/-- C3: for every URL whose HTTP GET returns the same non-200, non-429
status on all attempts, `get_response` retries until its 5 attempts are
exhausted and then returns that last response together with its status
code — not the `[None, None]` pair reserved for exhaustion. -/
theorem get_response_other_status_returns_last (env : ℕ → Outcome) (s : ℕ)
    (r5 : Response) (hs200 : s ≠ 200) (hs429 : s ≠ 429)
    (hall : ∀ i, 1 ≤ i → i ≤ 5 → ∃ r, env i = .response r ∧ r.status = s)
    (h5 : env 5 = .response r5) :
    get_response env = ⟨.ok r5 s, 5, []⟩ := by
  obtain ⟨r1, e1, s1⟩ := hall 1 (by norm_num) (by norm_num)
  obtain ⟨r2, e2, s2⟩ := hall 2 (by norm_num) (by norm_num)
  obtain ⟨r3, e3, s3⟩ := hall 3 (by norm_num) (by norm_num)
  obtain ⟨r4, e4, s4⟩ := hall 4 (by norm_num) (by norm_num)
  obtain ⟨r5', e5, s5⟩ := hall 5 (by norm_num) (by norm_num)
  have hr5 : r5.status = s := by
    rw [h5] at e5
    cases e5
    exact s5
  have n1 : r1.status ≠ 200 := by rw [s1]; exact hs200
  have n1' : r1.status ≠ 429 := by rw [s1]; exact hs429
  have n2 : r2.status ≠ 200 := by rw [s2]; exact hs200
  have n2' : r2.status ≠ 429 := by rw [s2]; exact hs429
  have n3 : r3.status ≠ 200 := by rw [s3]; exact hs200
  have n3' : r3.status ≠ 429 := by rw [s3]; exact hs429
  have n4 : r4.status ≠ 200 := by rw [s4]; exact hs200
  have n4' : r4.status ≠ 429 := by rw [s4]; exact hs429
  have n5 : r5.status ≠ 200 := by rw [hr5]; exact hs200
  have n5' : r5.status ≠ 429 := by rw [hr5]; exact hs429
  show getResponseGo env 1 (4 + 1) 0 = _
  rw [getResponseGo_other_retry env 1 4 0 r1 e1 n1 n1' (by norm_num [n_attempts])]
  show getResponseGo env 2 (3 + 1) 1 = _
  rw [getResponseGo_other_retry env 2 3 1 r2 e2 n2 n2' (by norm_num [n_attempts])]
  show getResponseGo env 3 (2 + 1) 2 = _
  rw [getResponseGo_other_retry env 3 2 2 r3 e3 n3 n3' (by norm_num [n_attempts])]
  show getResponseGo env 4 (1 + 1) 3 = _
  rw [getResponseGo_other_retry env 4 1 3 r4 e4 n4 n4' (by norm_num [n_attempts])]
  show getResponseGo env 5 (0 + 1) 4 = _
  rw [getResponseGo_other_last env 5 0 4 r5 h5 n5 n5' (by norm_num [n_attempts]), hr5]

/-- Witness for C3 at a URL answering 404 on every attempt. -/
theorem get_response_other_status_returns_last_witness :
    get_response envAll404 = ⟨.ok resp404 404, 5, []⟩ :=
  get_response_other_status_returns_last envAll404 404 resp404 (by decide)
    (by decide) (fun _ _ _ => ⟨resp404, rfl, rfl⟩) rfl

/-- C1 counterexample: at a URL answering 429 to every attempt, the code
does not pause 60 seconds after each 429 and does not return the last
response with its status code: the first 429 branch evaluates
`time.sleep(60)` with `time` never imported, so `get_response` raises
`NameError` after a single request, with no completed sleep. -/
theorem get_response_429_counterexample :
    get_response envAll429 = ⟨.nameError, 1, []⟩ ∧
    (get_response envAll429).result ≠ .ok resp429 429 ∧
    (get_response envAll429).sleeps = [] ∧
    (get_response envAll429).requests ≠ 5 := by
  refine ⟨rfl, by decide, rfl, by decide⟩

/-- C1 amended: for every URL whose HTTP GET returns status 429 on every
attempt, `get_response` raises an unhandled `NameError` upon the first 429
response (`main.py` never imports `time`, so `time.sleep(60)` fails),
after exactly one request and with no sleep performed; it returns
nothing. -/
theorem get_response_429_raises_nameError (env : ℕ → Outcome)
    (hall : ∀ i, 1 ≤ i → i ≤ 5 → ∃ r, env i = .response r ∧ r.status = 429) :
    get_response env = ⟨.nameError, 1, []⟩ := by
  obtain ⟨r1, e1, s1⟩ := hall 1 (by norm_num) (by norm_num)
  show getResponseGo env 1 (4 + 1) 0 = _
  rw [getResponseGo_429 env 1 4 0 r1 e1 s1]

/-- Witness for the amended C1 at a URL answering 429 on every attempt. -/
theorem get_response_429_raises_nameError_witness :
    get_response envAll429 = ⟨.nameError, 1, []⟩ :=
  get_response_429_raises_nameError envAll429 (fun _ _ _ => ⟨resp429, rfl, rfl⟩)

/-! ## Claims about the loader -/

/-- One concrete cleaned-and-stamped record, used by witnesses. -/
def sampleRow : StampedRecord :=
  ⟨"a".toList, "u".toList, "books".toList, 5177 / 100, 5177 / 100, 0, 19, 0,
   "d".toList, "Science".toList⟩

/-- A second concrete record, distinct from `sampleRow`. -/
def sampleRow2 : StampedRecord :=
  ⟨"b".toList, "v".toList, "books".toList, 1, 1, 0, 3, 2,
   "e".toList, "Poetry".toList⟩

/-- The process arguments used by witnesses for file mode. -/
def argsNoDb : List Str := ["main.py".toList, "--no_db".toList]

/-- C8: in file mode, loading `df1` when `data.csv` does not exist writes
the header line followed by the rows of `df1`; a subsequent load of `df2`
appends exactly the rows of `df2` with no second header, so the final file
has one header line and the data rows `df1 ++ df2` — `1 + |df1| + |df2|`
lines in all. -/
theorem load_data_file_header_then_append (args : List Str)
    (df1 df2 : List StampedRecord) (u p h d t : Str)
    (hargs : "--no_db".toList ∈ args) :
    load_data args df1 u p h d t none =
      .file (CsvLine.header :: df1.map CsvLine.data) ∧
    load_data args df2 u p h d t (some (CsvLine.header :: df1.map CsvLine.data)) =
      .file ((CsvLine.header :: df1.map CsvLine.data) ++ df2.map CsvLine.data) ∧
    headerCount ((CsvLine.header :: df1.map CsvLine.data) ++ df2.map CsvLine.data) = 1 ∧
    dataRows ((CsvLine.header :: df1.map CsvLine.data) ++ df2.map CsvLine.data) =
      df1 ++ df2 ∧
    ((CsvLine.header :: df1.map CsvLine.data) ++ df2.map CsvLine.data).length =
      1 + df1.length + df2.length := by
  refine ⟨by unfold load_data; rw [if_pos hargs],
    by unfold load_data; rw [if_pos hargs], ?_, ?_, ?_⟩
  · simp only [headerCount, List.countP_append, List.countP_cons, List.countP_map]
    simp [Function.comp_def, List.countP_eq_zero]
  · simp only [dataRows, List.filterMap_append, List.filterMap_cons,
      List.filterMap_map]
    simp [Function.comp_def]
  · simp [List.length_append]
    omega

/-- Witness for C8: two records then one record, in file mode. -/
theorem load_data_file_header_then_append_witness :
    load_data argsNoDb [sampleRow, sampleRow2] "u".toList "p".toList "h".toList
        "d".toList "t".toList none =
      .file (CsvLine.header :: [sampleRow, sampleRow2].map CsvLine.data) ∧
    load_data argsNoDb [sampleRow] "u".toList "p".toList "h".toList "d".toList
        "t".toList (some (CsvLine.header :: [sampleRow, sampleRow2].map CsvLine.data)) =
      .file ((CsvLine.header :: [sampleRow, sampleRow2].map CsvLine.data) ++
        [sampleRow].map CsvLine.data) ∧
    headerCount ((CsvLine.header :: [sampleRow, sampleRow2].map CsvLine.data) ++
      [sampleRow].map CsvLine.data) = 1 ∧
    dataRows ((CsvLine.header :: [sampleRow, sampleRow2].map CsvLine.data) ++
      [sampleRow].map CsvLine.data) = [sampleRow, sampleRow2] ++ [sampleRow] ∧
    ((CsvLine.header :: [sampleRow, sampleRow2].map CsvLine.data) ++
      [sampleRow].map CsvLine.data).length = 1 + 2 + 1 :=
  load_data_file_header_then_append argsNoDb [sampleRow, sampleRow2] [sampleRow]
    "u".toList "p".toList "h".toList "d".toList "t".toList
    (by decide)

/-- C10: when `"--no_db"` is among the process arguments, the result of
`load_data` is the same for any two assignments of the user, password,
host, database and table arguments: the credential parameters have no
influence on file-mode behaviour. -/
theorem load_data_file_mode_ignores_credentials (args : List Str)
    (df : List StampedRecord) (fs : Option (List CsvLine))
    (u1 p1 h1 d1 t1 u2 p2 h2 d2 t2 : Str)
    (hargs : "--no_db".toList ∈ args) :
    load_data args df u1 p1 h1 d1 t1 fs = load_data args df u2 p2 h2 d2 t2 fs := by
  unfold load_data
  rw [if_pos hargs, if_pos hargs]

/-- Witness for C10 with two entirely different credential tuples. -/
theorem load_data_file_mode_ignores_credentials_witness :
    load_data argsNoDb [sampleRow] "jacob".toList "password".toList
        "localhost".toList "book_db".toList "BooksToScrape".toList none =
      load_data argsNoDb [sampleRow] "other".toList "secret".toList
        "10.0.0.1".toList "other_db".toList "other_table".toList none :=
  load_data_file_mode_ignores_credentials argsNoDb [sampleRow] none
    "jacob".toList "password".toList "localhost".toList "book_db".toList
    "BooksToScrape".toList "other".toList "secret".toList "10.0.0.1".toList
    "other_db".toList "other_table".toList (by decide)

/-! ## Claims about the record extractor -/

theorem zip_take_length {α β : Type} (l1 : List α) (l2 : List β) :
    l1.zip l2 = l1.zip (l2.take l1.length) := by
  induction l1 generalizing l2 with
  | nil => simp
  | cons a l1 ih =>
    cases l2 with
    | nil => simp
    | cons b l2 =>
      simp only [List.length_cons, List.take_succ_cons, List.zip_cons_cons]
      rw [← ih l2]

theorem get?_zip_eq {α β : Type} (l1 : List α) (l2 : List β) (i : ℕ)
    (a : α) (b : β) (h1 : l1.get? i = some a) (h2 : l2.get? i = some b) :
    (l1.zip l2).get? i = some (a, b) := by
  induction l1 generalizing l2 i with
  | nil => simp at h1
  | cons x l1 ih =>
    cases l2 with
    | nil => simp at h2
    | cons y l2 =>
      cases i with
      | zero =>
        simp only [List.get?] at h1 h2
        cases h1
        cases h2
        rfl
      | succ i =>
        simp only [List.get?] at h1 h2 ⊢
        exact ih l2 i h1 h2

/-- C9: the 200-branch of `fetch_title_info` pairs the page's table-cell
texts positionally, in document order, against the fixed 7-name field
list; it is total — a cell count other than 7 raises no error and triggers
no validation — and cells beyond the seventh are silently dropped
(`dict(zip(fields, product_info))` truncates at the shorter list), while
the returned row always carries the fixed 9 columns. -/
theorem fetch_title_info_positional_zip (title desc : Str) (cells : List Str) :
    (fetchTitleRow title desc cells).length = 9 ∧
    buildProductDict cells = buildProductDict (cells.take 7) ∧
    (buildProductDict cells).length = min 7 cells.length ∧
    ∀ i f c, FIELDS.get? i = some f → cells.get? i = some c →
      (buildProductDict cells).get? i = some (f, c) := by
  refine ⟨?_, ?_, ?_, ?_⟩
  · show (COLUMNS.map fun col =>
      (col, pyLookup col (buildProductDict cells ++
        [(descCol, desc), (titleCol, title)]))).length = 9
    rw [List.length_map]
    rfl
  · have h := zip_take_length FIELDS cells
    rw [show FIELDS.length = 7 from rfl] at h
    exact h
  · show (FIELDS.zip cells).length = min 7 cells.length
    rw [List.length_zip, show FIELDS.length = 7 from rfl]
  · intro i f c h1 h2
    exact get?_zip_eq FIELDS cells i f c h1 h2

/-- Witness for C9: eight cells — one more than the field list — are
accepted, the surplus cell is dropped, and cell 0 lands on field 0. -/
theorem fetch_title_info_positional_zip_witness :
    (fetchTitleRow "t".toList "d".toList
      ["c0".toList, "c1".toList, "c2".toList, "c3".toList, "c4".toList,
       "c5".toList, "c6".toList, "c7".toList]).length = 9 ∧
    (buildProductDict
      ["c0".toList, "c1".toList, "c2".toList, "c3".toList, "c4".toList,
       "c5".toList, "c6".toList, "c7".toList]).get? 0 =
      some ("UPC".toList, "c0".toList) :=
  ⟨(fetch_title_info_positional_zip "t".toList "d".toList _).1,
   (fetch_title_info_positional_zip "t".toList "d".toList _).2.2.2 0
     "UPC".toList "c0".toList rfl rfl⟩

/-! ## Claims about the cleaner -/

/-- Inversion of a successful `clean_data` run: every numeric field of the
output is the cast of a successful pattern extraction, and the text fields
pass through unchanged. -/
theorem clean_data_ok_inv (r : RawRecord) (c : CleanRecord)
    (hok : clean_data r = .ok c) :
    ∃ av pe pin tx,
      convert_availability r.availability = .ok av ∧
      convert_price r.price_excl_tax = .ok pe ∧
      convert_price r.price_incl_tax = .ok pin ∧
      convert_price r.tax = .ok tx ∧
      castFloat pe = .ok c.price_excl_tax ∧
      castFloat pin = .ok c.price_incl_tax ∧
      castFloat tx = .ok c.tax ∧
      castInt av = .ok c.availability ∧
      castInt r.number_of_reviews = .ok c.number_of_reviews ∧
      c.title = r.title ∧ c.upc = r.upc ∧ c.product_type = r.product_type ∧
      c.product_description = r.product_description := by
  unfold clean_data at hok
  cases h1 : convert_availability r.availability with
  | error e => simp only [h1] at hok; exact Except.noConfusion hok
  | ok av =>
  simp only [h1] at hok
  cases h2 : convert_price r.price_excl_tax with
  | error e => simp only [h2] at hok; exact Except.noConfusion hok
  | ok pe =>
  simp only [h2] at hok
  cases h3 : convert_price r.price_incl_tax with
  | error e => simp only [h3] at hok; exact Except.noConfusion hok
  | ok pin =>
  simp only [h3] at hok
  cases h4 : convert_price r.tax with
  | error e => simp only [h4] at hok; exact Except.noConfusion hok
  | ok tx =>
  simp only [h4] at hok
  cases h5 : castFloat pe with
  | error e => simp only [h5] at hok; exact Except.noConfusion hok
  | ok peQ =>
  simp only [h5] at hok
  cases h6 : castFloat pin with
  | error e => simp only [h6] at hok; exact Except.noConfusion hok
  | ok pinQ =>
  simp only [h6] at hok
  cases h7 : castFloat tx with
  | error e => simp only [h7] at hok; exact Except.noConfusion hok
  | ok txQ =>
  simp only [h7] at hok
  cases h8 : castInt av with
  | error e => simp only [h8] at hok; exact Except.noConfusion hok
  | ok avZ =>
  simp only [h8] at hok
  cases h9 : castInt r.number_of_reviews with
  | error e => simp only [h9] at hok; exact Except.noConfusion hok
  | ok nrZ =>
  simp only [h9, Except.ok.injEq] at hok
  subst hok
  exact ⟨av, pe, pin, tx, rfl, rfl, rfl, rfl, h5, h6, h7, h8, rfl, rfl, rfl, rfl,
    rfl⟩

theorem convert_price_51_77 :
    convert_price "£51.77".toList = .ok "51.77".toList := rfl

/-- The exact rational `castFloat` produces for the text `"51.77"`. -/
def q51_77 : ℚ :=
  (natOfDigits "51".toList : ℚ) + (natOfDigits "77".toList : ℚ) / 10 ^ ("77".toList).length

theorem castFloat_51_77 : castFloat "51.77".toList = .ok q51_77 := rfl

theorem q51_77_val : q51_77 = 5177 / 100 := by
  rw [q51_77, show natOfDigits "51".toList = 51 from rfl,
    show natOfDigits "77".toList = 77 from rfl,
    show ("77".toList).length = 2 from rfl]
  norm_num

/-- A price-like field holding `"£51.77"` that survives cleaning came out
as the rational 51.77. -/
theorem price_field_value (s pe : Str) (q : ℚ)
    (h2 : convert_price s = .ok pe) (h5 : castFloat pe = .ok q)
    (hs : s = "£51.77".toList) : q = 5177 / 100 := by
  subst hs
  rw [convert_price_51_77] at h2
  injection h2 with h
  rw [← h, castFloat_51_77] at h5
  injection h5 with h5'
  rw [← h5', q51_77_val]

theorem convert_availability_in_stock_19 :
    convert_availability "In stock (19 available)".toList = .ok "19".toList := rfl

theorem castInt_19 : castInt "19".toList = .ok 19 := rfl

/-- An availability field holding `"In stock (19 available)"` that
survives cleaning came out as the integer 19. -/
theorem avail_field_value (s av : Str) (z : ℤ)
    (h1 : convert_availability s = .ok av) (h8 : castInt av = .ok z)
    (hs : s = "In stock (19 available)".toList) : z = 19 := by
  subst hs
  rw [convert_availability_in_stock_19] at h1
  injection h1 with h
  rw [← h, castInt_19] at h8
  injection h8 with h8'
  exact h8'.symm

/-- C5: whenever `clean_data` succeeds, a price-like field whose raw text
was `"£51.77"` has become the value 51.77 (first `\d+\.\d+` substring,
cast to the declared float type), and an availability field whose raw
text was `"In stock (19 available)"` has become the integer 19 (first
`\d+` substring, cast to the declared integer type). -/
theorem clean_data_concrete_values (r : RawRecord) (c : CleanRecord)
    (hok : clean_data r = .ok c) :
    (r.price_excl_tax = "£51.77".toList → c.price_excl_tax = 5177 / 100) ∧
    (r.price_incl_tax = "£51.77".toList → c.price_incl_tax = 5177 / 100) ∧
    (r.tax = "£51.77".toList → c.tax = 5177 / 100) ∧
    (r.availability = "In stock (19 available)".toList → c.availability = 19) := by
  obtain ⟨av, pe, pin, tx, h1, h2, h3, h4, h5, h6, h7, h8, h9, -, -, -, -⟩ :=
    clean_data_ok_inv r c hok
  exact ⟨fun hf => price_field_value _ pe _ h2 h5 hf,
    fun hf => price_field_value _ pin _ h3 h6 hf,
    fun hf => price_field_value _ tx _ h4 h7 hf,
    fun hf => avail_field_value _ av _ h1 h8 hf⟩

/-- A raw record with the two texts of C5 in its fields. -/
def rawSample : RawRecord :=
  ⟨"sapiens".toList, "u123".toList, "books".toList, "£51.77".toList,
   "£51.77".toList, "£51.77".toList, "In stock (19 available)".toList,
   "0".toList, "a description".toList⟩

/-- The cleaned record `clean_data` produces from `rawSample`. -/
def cleanSample : CleanRecord :=
  ⟨"sapiens".toList, "u123".toList, "books".toList, q51_77, q51_77, q51_77,
   19, 0, "a description".toList⟩

/-- Witness for C5: cleaning `rawSample` succeeds and yields 51.77 for the
three price-like fields and 19 for the availability field. -/
theorem clean_data_concrete_values_witness :
    clean_data rawSample = .ok cleanSample ∧
    cleanSample.price_excl_tax = 5177 / 100 ∧
    cleanSample.price_incl_tax = 5177 / 100 ∧
    cleanSample.tax = 5177 / 100 ∧
    cleanSample.availability = 19 :=
  have hok : clean_data rawSample = .ok cleanSample := rfl
  have h := clean_data_concrete_values rawSample cleanSample hok
  ⟨hok, h.1 rfl, h.2.1 rfl, h.2.2.1 rfl, h.2.2.2 rfl⟩

/-- C6: when a price-like field contains no `\d+\.\d+` substring or the
availability field contains no `\d+` substring, `clean_data` raises (the
`IndexError` from indexing an empty match list), and never returns a
cleaned record — no default or null is substituted. -/
theorem clean_data_extraction_failure_raises (r : RawRecord)
    (h : findDecNum r.price_excl_tax = none ∨ findDecNum r.price_incl_tax = none ∨
      findDecNum r.tax = none ∨ findIntNum r.availability = none) :
    clean_data r = .error CleanErr.indexError ∧ ∀ c, clean_data r ≠ .ok c := by
  have step : clean_data r = .error CleanErr.indexError := by
    unfold clean_data
    cases hA : findIntNum r.availability with
    | none => simp [convert_availability, hA]
    | some a =>
      cases hPE : findDecNum r.price_excl_tax with
      | none => simp [convert_availability, convert_price, hA, hPE]
      | some b =>
        cases hPI : findDecNum r.price_incl_tax with
        | none => simp [convert_availability, convert_price, hA, hPE, hPI]
        | some b' =>
          cases hT : findDecNum r.tax with
          | none => simp [convert_availability, convert_price, hA, hPE, hPI, hT]
          | some d => rcases h with h | h | h | h <;> simp_all
  exact ⟨step, fun c hc => by rw [step] at hc; exact Except.noConfusion hc⟩

/-- A raw record whose availability text contains no digits. -/
def rawBad : RawRecord :=
  ⟨"sapiens".toList, "u123".toList, "books".toList, "£51.77".toList,
   "£51.77".toList, "£51.77".toList, "Sold out".toList, "0".toList,
   "a description".toList⟩

/-- Witness for C6: a digitless availability text makes `clean_data`
raise. -/
theorem clean_data_extraction_failure_raises_witness :
    clean_data rawBad = .error CleanErr.indexError :=
  (clean_data_extraction_failure_raises rawBad (Or.inr (Or.inr (Or.inr rfl)))).1

/-- C7: every cleaned record has exactly the nine base fields (by the
type `CleanRecord`, whose numeric fields are total, hence never null);
each numeric field of a successful `clean_data` output is the cast of a
successful extraction, the text fields pass through, and the driver's
stamp adds exactly the `category` label on top of the nine base
fields (type `StampedRecord`). -/
theorem clean_record_schema (r : RawRecord) (c : CleanRecord) (cat : Str)
    (hok : clean_data r = .ok c) :
    (∃ s, convert_availability r.availability = .ok s ∧
      castInt s = .ok c.availability) ∧
    (∃ s, convert_price r.price_excl_tax = .ok s ∧
      castFloat s = .ok c.price_excl_tax) ∧
    (∃ s, convert_price r.price_incl_tax = .ok s ∧
      castFloat s = .ok c.price_incl_tax) ∧
    (∃ s, convert_price r.tax = .ok s ∧ castFloat s = .ok c.tax) ∧
    castInt r.number_of_reviews = .ok c.number_of_reviews ∧
    c.title = r.title ∧ c.upc = r.upc ∧ c.product_type = r.product_type ∧
    c.product_description = r.product_description ∧
    stampCategory c cat = ⟨c.title, c.upc, c.product_type, c.price_excl_tax,
      c.price_incl_tax, c.tax, c.availability, c.number_of_reviews,
      c.product_description, cat⟩ := by
  obtain ⟨av, pe, pin, tx, h1, h2, h3, h4, h5, h6, h7, h8, h9, ht, hu, hp, hd⟩ :=
    clean_data_ok_inv r c hok
  exact ⟨⟨av, h1, h8⟩, ⟨pe, h2, h5⟩, ⟨pin, h3, h6⟩, ⟨tx, h4, h7⟩, h9, ht, hu,
    hp, hd, rfl⟩

/-- Witness for C7 at `rawSample`, stamped with the `Science` category. -/
theorem clean_record_schema_witness :
    castInt rawSample.number_of_reviews = .ok cleanSample.number_of_reviews ∧
    cleanSample.title = rawSample.title ∧
    stampCategory cleanSample "Science".toList =
      ⟨cleanSample.title, cleanSample.upc, cleanSample.product_type,
       cleanSample.price_excl_tax, cleanSample.price_incl_tax, cleanSample.tax,
       cleanSample.availability, cleanSample.number_of_reviews,
       cleanSample.product_description, "Science".toList⟩ :=
  have h := clean_record_schema rawSample cleanSample "Science".toList rfl
  ⟨h.2.2.2.2.1, h.2.2.2.2.2.1, h.2.2.2.2.2.2.2.2.2⟩

/-! ## Claims about the title derivation -/

/-- A detail URL whose book-title portion itself contains an underscore:
the segment before `index.html` is `one_two_3`, whose title portion (the
segment minus the trailing `_3`) is `one_two`. -/
def urlMultiUnderscore : Str :=
  "http://books.toscrape.com/catalogue/one_two_3/index.html".toList

/-- C4 counterexample: on `.../catalogue/one_two_3/index.html` the code
(`url.split("/")[-2].split("_")[0]`) yields `"one"`, not the segment minus
its trailing identifier suffix, which is `"one_two"` — everything from the
first underscore on is dropped, not just the trailing `_<book_id>`. -/
theorem titleFromUrl_counterexample :
    titleFromUrl urlMultiUnderscore = some "one".toList ∧
    "one".toList ≠ "one_two".toList :=
  ⟨rfl, by decide⟩

/-- C4 amended: for every item detail URL of the form
`.../catalogue/<book_title>_<book_id>/index.html` in which the book-title
portion contains no underscore, the derived Title equals the segment minus
its trailing `_<book_id>`, i.e. the book-title portion.  (In general the
code keeps only what precedes the segment's first underscore.) -/
theorem titleFromUrl_strips_id (url t bid : Str)
    (hlen : 2 ≤ (splitChar '/' url).length)
    (hseg : (splitChar '/' url).get? ((splitChar '/' url).length - 2) =
      some (t ++ '_' :: bid))
    (ht : '_' ∉ t) :
    titleFromUrl url = some t := by
  show (if (splitChar '/' url).length < 2 then none
    else ((splitChar '/' url).get? ((splitChar '/' url).length - 2)).map
      fun seg => (splitChar '_' seg).headD []) = some t
  rw [if_neg (by omega), hseg, Option.map_some', splitChar_append_sep '_' t bid ht]
  rfl

/-- A well-formed detail URL: title portion `sapiens`, identifier 996. -/
def urlSingleUnderscore : Str :=
  "http://books.toscrape.com/catalogue/sapiens_996/index.html".toList

/-- Witness for the amended C4. -/
theorem titleFromUrl_strips_id_witness :
    titleFromUrl urlSingleUnderscore = some "sapiens".toList :=
  titleFromUrl_strips_id urlSingleUnderscore "sapiens".toList "996".toList
    (by decide) (by decide) (by decide)

theorem pyLookup_append_of_not_key (k : Str) (l1 rest : List (Str × Str))
    (hk : ∀ p ∈ l1, p.1 ≠ k) : pyLookup k (l1 ++ rest) = pyLookup k rest := by
  induction l1 with
  | nil => rfl
  | cons p l1 ih =>
    obtain ⟨k', v⟩ := p
    have h1 : k' ≠ k := hk (k', v) (List.mem_cons_self _ _)
    simp only [List.cons_append, pyLookup, if_neg h1]
    exact ih fun q hq => hk q (List.mem_cons_of_mem _ hq)

/-- The assembled dict always answers the `Title` key with the
URL-derived title, whatever the table cells were. -/
theorem pyLookup_title (t desc : Str) (cells : List Str) :
    pyLookup titleCol
      (buildProductDict cells ++ [(descCol, desc), (titleCol, t)]) = some t := by
  rw [pyLookup_append_of_not_key]
  · simp only [pyLookup]
    rw [if_neg (show ¬ descCol = titleCol by decide)]
    rfl
  · intro p hp hk
    have h1 : p.1 ∈ FIELDS := (List.of_mem_zip hp).1
    rw [hk] at h1
    exact absurd h1 (by decide)

/-- The Title the row carries is exactly the one derived from the URL:
`fetch_title_info` stores `titleFromUrl` under the `Title` column, which
heads the row. -/
theorem fetch_title_info_title_column (url desc : Str) (cells : List Str)
    (t : Str) (h : titleFromUrl url = some t) :
    ∃ row, fetch_title_info url desc cells = some row ∧
      row.head? = some (titleCol, some t) := by
  refine ⟨fetchTitleRow t desc cells, ?_, ?_⟩
  · rw [fetch_title_info, h, Option.map_some']
  · show some (titleCol, pyLookup titleCol
      (buildProductDict cells ++ [(descCol, desc), (titleCol, t)])) = _
    rw [pyLookup_title]

end BooksToScrape
